import Mathlib

/-!
Verification of the relay-st-jude campaign client against its design
specification.

The development shallowly embeds the decode pipeline of the crate:

* `Json` — the wire form a response body parses to (serde_json values);
  JSON numbers are modelled as exact rationals.
* `F64` — the result of Rust's `str::parse::<f64>()`: either a special
  value (`nan`, `inf`) or a finite value.  Finite decimal numerals are
  mapped to their exact rational value; IEEE rounding and
  overflow-to-infinity of huge exponents are abstracted away, which is
  faithful for every string the claims exercise.
* field-by-field deserializers mirroring the `serde` derived
  implementations for `Usd`, `Milestone`, `Campaign`, `ApiError`,
  `Location`, `ApiData` and `ApiResponse` in `src/lib.rs` (duplicate
  fields rejected, unknown fields ignored, `Option` fields defaulting to
  `None`, `#[serde(default)]` fields defaulting to empty).
* `fetch_by_decode` — the pure tail of `Campaign::fetch_by`: everything
  it does to a response body after the HTTP transport returned it,
  starting from the parsed JSON value.
* the `fmt::Display` implementations for `ApiError` and `Usd`, and the
  query builder `build_graph_ql_query`.

Rust casts `as u64` / `as u8` are embedded with their saturating
semantics, and `f64::fract` with its sign-preserving semantics.
-/

namespace StJude

/-- A parsed JSON value, as produced by `serde_json` from a response
body.  Objects keep their fields as an ordered association list, in wire
order, which is the order serde's map visitor sees them in. -/
inductive Json where
  | null
  | bool (b : Bool)
  | num (q : ℚ)
  | str (s : String)
  | arr (elems : List Json)
  | obj (fields : List (String × Json))

/-- Result of Rust's `str::parse::<f64>()`.  Finite numerals are kept as
their exact rational value. -/
inductive F64 where
  | nan
  | inf (neg : Bool)
  | val (q : ℚ)
deriving DecidableEq

/-- Is this float value finite (neither NaN nor an infinity)? -/
def F64.isFinite : F64 → Bool
  | .val _ => true
  | _ => false

/-! ## Rust float-string grammar

`str::parse::<f64>()` accepts, after an optional sign, either one of the
case-insensitive keywords `inf`, `infinity`, `nan`, or a decimal numeral
`Digit+ | Digit+ '.' Digit* | Digit* '.' Digit+` with an optional
exponent `('e'|'E') Sign? Digit+`; the whole string must be consumed. -/

/-- Split a character list into its leading ASCII digits and the rest. -/
def takeDigits : List Char → List Char × List Char
  | [] => ([], [])
  | c :: t =>
    if c.isDigit then
      let (ds, r) := takeDigits t
      (c :: ds, r)
    else ([], c :: t)

/-- Value of a list of ASCII digits read in base 10. -/
def digitsToNat (ds : List Char) : ℕ :=
  ds.foldl (fun n c => 10 * n + (c.toNat - 48)) 0

/-- Parse the numeral part of a float string (after the optional sign):
mantissa with optional fraction, then optional exponent.  Returns the
exact rational value. -/
def parseNumber (cs : List Char) : Option ℚ :=
  let (ip, r1) := takeDigits cs
  let (fp, r2) :=
    match r1 with
    | '.' :: t =>
      let (ds, r) := takeDigits t
      (some ds, r)
    | _ => (none, r1)
  let mantissaOk : Bool :=
    !ip.isEmpty || (match fp with | some f => !f.isEmpty | none => false)
  if !mantissaOk then none
  else
    let frac := fp.getD []
    let mant : ℚ := (digitsToNat ip : ℚ) + (digitsToNat frac : ℚ) / ((10 : ℚ) ^ frac.length)
    match r2 with
    | [] => some mant
    | e :: t =>
      if e = 'e' ∨ e = 'E' then
        let (eneg, t2) :=
          match t with
          | '+' :: u => (false, u)
          | '-' :: u => (true, u)
          | u => (false, u)
        let (eds, r3) := takeDigits t2
        if eds.isEmpty ∨ ¬r3.isEmpty then none
        else
          let ex := digitsToNat eds
          some (if eneg then mant / (10 : ℚ) ^ ex else mant * (10 : ℚ) ^ ex)
      else none

/-- Model of `str::parse::<f64>()`: optional sign, then a
case-insensitive special keyword or a decimal numeral. -/
def parseF64 (s : String) : Option F64 :=
  match s.data with
  | [] => none
  | cs =>
    let (neg, rest) :=
      match cs with
      | '+' :: t => (false, t)
      | '-' :: t => (true, t)
      | t => (false, t)
    let lower := rest.map Char.toLower
    if lower = "inf".data ∨ lower = "infinity".data then some (.inf neg)
    else if lower = "nan".data then some .nan
    else
      match parseNumber rest with
      | some q => some (.val (if neg then -q else q))
      | none => none

/-! ## Data model (src/lib.rs) -/

/-- Decode failures raised while deserializing the envelope, mirroring
the distinct ways the serde deserializers in `src/lib.rs` fail.
`typeError`, `missingField` and `duplicateField` are the structural
serde errors (the spec's `MalformedResponse` family); `malformedAmount`
is the custom error raised by `deserialize_f64_from_str` when a currency
`value` string fails the float parse. -/
inductive DecodeError where
  | typeError
  | missingField (name : String)
  | duplicateField (name : String)
  | malformedAmount (s : String)
deriving DecidableEq

/-- A dollar amount (struct `Usd` in src/lib.rs): a single float, decoded
from the wire field `value`. -/
structure Usd where
  amount : F64
deriving DecidableEq

/-- Usd::new — construct from a dollar amount. -/
def Usd.new (amount : F64) : Usd := ⟨amount⟩

/-- Usd::usd — convert into a number for arithmetic; returns the stored
value. -/
def Usd.usd (u : Usd) : F64 := u.amount

/-- A fund-raising milestone (struct `Milestone`): the wire field `name`
is renamed to `description`. -/
structure Milestone where
  description : String
  amount : Usd
deriving DecidableEq

/-- The campaign aggregate (struct `Campaign`): the wire field
`totalAmountRaised` is renamed to `total_amount_raised`; missing
`milestones` defaults to the empty list. -/
structure Campaign where
  name : String
  description : String
  total_amount_raised : Usd
  goal : Usd
  milestones : List Milestone
deriving DecidableEq

/-- A 1-based source location attached to a remote error (struct
`Location`); `usize` fields are modelled as naturals. -/
structure Location where
  line : ℕ
  column : ℕ
deriving DecidableEq

/-- A remote error descriptor (struct `ApiError`); missing `locations`
defaults to the empty list. -/
structure ApiError where
  message : String
  locations : List Location
deriving DecidableEq

/-- The `data` wrapper of the envelope (struct `ApiData`). -/
structure ApiData where
  campaign : Campaign
deriving DecidableEq

/-- The response envelope (struct `ApiResponse`): optional `data`, and
`errors` defaulting to empty via `#[serde(default)]`. -/
structure ApiResponse where
  data : Option ApiData
  errors : List ApiError
deriving DecidableEq

/-! ## Deserializers

Each struct's derived `Deserialize` impl is embedded as a fold over the
object's field list carrying one accumulator per declared field: a
duplicate key is rejected before its value is examined, an unknown key
is skipped (serde's `IgnoredAny`), and after the last entry the
missing-field checks run in declaration order. -/

/-- Model of `String::deserialize` on a serde_json value: only a JSON
string is accepted. -/
def deserializeString : Json → Except DecodeError String
  | .str s => .ok s
  | _ => .error .typeError

/-- Model of `usize::deserialize` on a serde_json value: a non-negative
integral number within the 64-bit range. -/
def deserializeNat (j : Json) : Except DecodeError ℕ :=
  match j with
  | .num q => if q.den = 1 ∧ 0 ≤ q.num ∧ q.num < 2 ^ 64 then .ok q.num.toNat else .error .typeError
  | _ => .error .typeError

/-- deserialize_f64_from_str (src/lib.rs): deserialize a `String`, then
`parse` it; a parse failure becomes a custom serde error, modelled as
`malformedAmount`. -/
def deserialize_f64_from_str (j : Json) : Except DecodeError F64 :=
  match j with
  | .str s =>
    match parseF64 s with
    | some x => .ok x
    | none => .error (.malformedAmount s)
  | _ => .error .typeError

/-- Field loop of `Usd`'s derived deserializer.  The single declared
field is `value` (the struct field `amount` renamed), read with
`deserialize_f64_from_str`; every other key — `currency` included — is
ignored. -/
def deserializeUsdFields : List (String × Json) → Option F64 → Except DecodeError F64
  | [], none => .error (.missingField "value")
  | [], some x => .ok x
  | (k, v) :: rest, acc =>
    if k = "value" then
      match acc with
      | some _ => .error (.duplicateField "value")
      | none =>
        match deserialize_f64_from_str v with
        | .ok x => deserializeUsdFields rest (some x)
        | .error e => .error e
    else deserializeUsdFields rest acc

/-- Derived `Deserialize` for `Usd`: expects a JSON object. -/
def deserializeUsd : Json → Except DecodeError Usd
  | .obj fields => (deserializeUsdFields fields none).map Usd.new
  | _ => .error .typeError

/-- Field loop of `Milestone`'s derived deserializer: wire field `name`
(the struct field `description`) and `amount`. -/
def deserializeMilestoneFields :
    List (String × Json) → Option String → Option Usd → Except DecodeError Milestone
  | [], d, a =>
    match d, a with
    | some d, some a => .ok ⟨d, a⟩
    | none, _ => .error (.missingField "name")
    | some _, none => .error (.missingField "amount")
  | (k, v) :: rest, d, a =>
    if k = "name" then
      match d with
      | some _ => .error (.duplicateField "name")
      | none =>
        match deserializeString v with
        | .ok s => deserializeMilestoneFields rest (some s) a
        | .error e => .error e
    else if k = "amount" then
      match a with
      | some _ => .error (.duplicateField "amount")
      | none =>
        match deserializeUsd v with
        | .ok u => deserializeMilestoneFields rest d (some u)
        | .error e => .error e
    else deserializeMilestoneFields rest d a

/-- Derived `Deserialize` for `Milestone`. -/
def deserializeMilestone : Json → Except DecodeError Milestone
  | .obj fields => deserializeMilestoneFields fields none none
  | _ => .error .typeError

/-- `Vec<Milestone>::deserialize`: a JSON array of milestones. -/
def deserializeMilestoneList : Json → Except DecodeError (List Milestone)
  | .arr xs => xs.mapM deserializeMilestone
  | _ => .error .typeError

/-- Field loop of `Campaign`'s derived deserializer: `name`,
`description`, `totalAmountRaised` (renamed to `total_amount_raised`),
`goal`, and `milestones` with `#[serde(default)]`. -/
def deserializeCampaignFields :
    List (String × Json) → Option String → Option String → Option Usd → Option Usd →
    Option (List Milestone) → Except DecodeError Campaign
  | [], n, d, t, g, m =>
    match n, d, t, g with
    | some n, some d, some t, some g => .ok ⟨n, d, t, g, m.getD []⟩
    | none, _, _, _ => .error (.missingField "name")
    | some _, none, _, _ => .error (.missingField "description")
    | some _, some _, none, _ => .error (.missingField "totalAmountRaised")
    | some _, some _, some _, none => .error (.missingField "goal")
  | (k, v) :: rest, n, d, t, g, m =>
    if k = "name" then
      match n with
      | some _ => .error (.duplicateField "name")
      | none =>
        match deserializeString v with
        | .ok s => deserializeCampaignFields rest (some s) d t g m
        | .error e => .error e
    else if k = "description" then
      match d with
      | some _ => .error (.duplicateField "description")
      | none =>
        match deserializeString v with
        | .ok s => deserializeCampaignFields rest n (some s) t g m
        | .error e => .error e
    else if k = "totalAmountRaised" then
      match t with
      | some _ => .error (.duplicateField "totalAmountRaised")
      | none =>
        match deserializeUsd v with
        | .ok u => deserializeCampaignFields rest n d (some u) g m
        | .error e => .error e
    else if k = "goal" then
      match g with
      | some _ => .error (.duplicateField "goal")
      | none =>
        match deserializeUsd v with
        | .ok u => deserializeCampaignFields rest n d t (some u) m
        | .error e => .error e
    else if k = "milestones" then
      match m with
      | some _ => .error (.duplicateField "milestones")
      | none =>
        match deserializeMilestoneList v with
        | .ok ms => deserializeCampaignFields rest n d t g (some ms)
        | .error e => .error e
    else deserializeCampaignFields rest n d t g m

/-- Derived `Deserialize` for `Campaign`. -/
def deserializeCampaign : Json → Except DecodeError Campaign
  | .obj fields => deserializeCampaignFields fields none none none none none
  | _ => .error .typeError

/-- Field loop of `Location`'s derived deserializer: `line` and
`column`, both required. -/
def deserializeLocationFields :
    List (String × Json) → Option ℕ → Option ℕ → Except DecodeError Location
  | [], l, c =>
    match l, c with
    | some l, some c => .ok ⟨l, c⟩
    | none, _ => .error (.missingField "line")
    | some _, none => .error (.missingField "column")
  | (k, v) :: rest, l, c =>
    if k = "line" then
      match l with
      | some _ => .error (.duplicateField "line")
      | none =>
        match deserializeNat v with
        | .ok n => deserializeLocationFields rest (some n) c
        | .error e => .error e
    else if k = "column" then
      match c with
      | some _ => .error (.duplicateField "column")
      | none =>
        match deserializeNat v with
        | .ok n => deserializeLocationFields rest l (some n)
        | .error e => .error e
    else deserializeLocationFields rest l c

/-- Derived `Deserialize` for `Location`. -/
def deserializeLocation : Json → Except DecodeError Location
  | .obj fields => deserializeLocationFields fields none none
  | _ => .error .typeError

/-- `Vec<Location>::deserialize`. -/
def deserializeLocationList : Json → Except DecodeError (List Location)
  | .arr xs => xs.mapM deserializeLocation
  | _ => .error .typeError

/-- Field loop of `ApiError`'s derived deserializer: `message` required,
`locations` with `#[serde(default)]`. -/
def deserializeApiErrorFields :
    List (String × Json) → Option String → Option (List Location) → Except DecodeError ApiError
  | [], m, l =>
    match m with
    | some m => .ok ⟨m, l.getD []⟩
    | none => .error (.missingField "message")
  | (k, v) :: rest, m, l =>
    if k = "message" then
      match m with
      | some _ => .error (.duplicateField "message")
      | none =>
        match deserializeString v with
        | .ok s => deserializeApiErrorFields rest (some s) l
        | .error e => .error e
    else if k = "locations" then
      match l with
      | some _ => .error (.duplicateField "locations")
      | none =>
        match deserializeLocationList v with
        | .ok ls => deserializeApiErrorFields rest m (some ls)
        | .error e => .error e
    else deserializeApiErrorFields rest m l

/-- Derived `Deserialize` for `ApiError`. -/
def deserializeApiError : Json → Except DecodeError ApiError
  | .obj fields => deserializeApiErrorFields fields none none
  | _ => .error .typeError

/-- `Vec<ApiError>::deserialize`. -/
def deserializeApiErrorList : Json → Except DecodeError (List ApiError)
  | .arr xs => xs.mapM deserializeApiError
  | _ => .error .typeError

/-- Field loop of `ApiData`'s derived deserializer: the single required
field `campaign`. -/
def deserializeApiDataFields :
    List (String × Json) → Option Campaign → Except DecodeError ApiData
  | [], none => .error (.missingField "campaign")
  | [], some c => .ok ⟨c⟩
  | (k, v) :: rest, acc =>
    if k = "campaign" then
      match acc with
      | some _ => .error (.duplicateField "campaign")
      | none =>
        match deserializeCampaign v with
        | .ok c => deserializeApiDataFields rest (some c)
        | .error e => .error e
    else deserializeApiDataFields rest acc

/-- Derived `Deserialize` for `ApiData`. -/
def deserializeApiData : Json → Except DecodeError ApiData
  | .obj fields => deserializeApiDataFields fields none
  | _ => .error .typeError

/-- `Option<ApiData>::deserialize`: JSON `null` maps to `none`,
anything else must deserialize as `ApiData`. -/
def deserializeOptApiData : Json → Except DecodeError (Option ApiData)
  | .null => .ok none
  | j => (deserializeApiData j).map some

/-- Field loop of `ApiResponse`'s derived deserializer: `data` is an
`Option` field (missing means `None`), `errors` carries
`#[serde(default)]` (missing means empty). -/
def deserializeApiResponseFields :
    List (String × Json) → Option (Option ApiData) → Option (List ApiError) →
    Except DecodeError ApiResponse
  | [], d, e => .ok ⟨d.getD none, e.getD []⟩
  | (k, v) :: rest, d, e =>
    if k = "data" then
      match d with
      | some _ => .error (.duplicateField "data")
      | none =>
        match deserializeOptApiData v with
        | .ok od => deserializeApiResponseFields rest (some od) e
        | .error err => .error err
    else if k = "errors" then
      match e with
      | some _ => .error (.duplicateField "errors")
      | none =>
        match deserializeApiErrorList v with
        | .ok es => deserializeApiResponseFields rest d (some es)
        | .error err => .error err
    else deserializeApiResponseFields rest d e

/-- Derived `Deserialize` for `ApiResponse`. -/
def deserializeApiResponse : Json → Except DecodeError ApiResponse
  | .obj fields => deserializeApiResponseFields fields none none
  | _ => .error .typeError

/-! ## Display impls and the fetch pipeline (src/lib.rs) -/

/-- fmt::Display for ApiError: no locations renders `~ <message>`;
otherwise the first location renders `~:<line>:<column> <message>`. -/
def ApiError.display (e : ApiError) : String :=
  match e.locations with
  | [] => "~ " ++ e.message
  | loc :: _ => "~:" ++ toString loc.line ++ ":" ++ toString loc.column ++ " " ++ e.message

/-- Saturating Rust cast `f64 as u64` on a finite value: negative values
clamp to 0, values at or above `2^64` clamp to `u64::MAX`; in between
the value is truncated toward zero. -/
def rustCastU64 (q : ℚ) : ℕ :=
  if q < 0 then 0 else min ⌊q⌋.toNat (2 ^ 64 - 1)

/-- Saturating Rust cast `f64 as u8` on a finite value. -/
def rustCastU8 (q : ℚ) : ℕ :=
  if q < 0 then 0 else min ⌊q⌋.toNat 255

/-- Rust `f64::fract`: `self - self.trunc()`, truncation toward zero, so
the result keeps the sign of the input. -/
def rustFract (q : ℚ) : ℚ :=
  if 0 ≤ q then q - ⌊q⌋ else q - ⌈q⌉

/-- The `dollars` computation of `Usd`'s Display impl:
`self.amount as u64`.  NaN casts to 0, negative infinity to 0, positive
infinity to `u64::MAX`. -/
def F64.toU64 : F64 → ℕ
  | .nan => 0
  | .inf neg => if neg then 0 else 2 ^ 64 - 1
  | .val q => rustCastU64 q

/-- The `cents` computation of `Usd`'s Display impl:
`(100. * self.amount.fract() + 0.005) as u8`.  For a non-finite amount
the fract is NaN, NaN propagates through the arithmetic, and `as u8`
maps NaN to 0. -/
def F64.cents : F64 → ℕ
  | .val q => rustCastU8 (100 * rustFract q + 1 / 200)
  | _ => 0

/-- Thousands grouping of `num_format`'s `Locale::en`, on the reversed
digit list: a comma after every third digit from the right. -/
def groupThousandsRev : List Char → List Char
  | a :: b :: c :: d :: rest => a :: b :: c :: ',' :: groupThousandsRev (d :: rest)
  | xs => xs

/-- `u64::to_formatted_string(&Locale::en)`: decimal digits grouped in
threes with commas. -/
def commaFormat (n : ℕ) : String :=
  String.mk (groupThousandsRev (Nat.repr n).data.reverse).reverse

/-- Rust's `\x7b:02\x7d` formatting of the cents value: zero-padded to a
minimum width of two digits (a value of 100 or more keeps all its
digits). -/
def pad2 (n : ℕ) : String :=
  if n < 10 then "0" ++ Nat.repr n else Nat.repr n

/-- fmt::Display for Usd, without a requested width:
`format!("$\x7b\x7d.\x7b:02\x7d", dollars.to_formatted_string(&Locale::en), cents)`.
(The width-padding branch of the impl is not modelled; no claim
exercises it.) -/
def Usd.display (u : Usd) : String :=
  "$" ++ commaFormat u.amount.toU64 ++ "." ++ pad2 u.amount.cents

/-- Fetch-level failures of `Campaign::fetch_by` after the transport
succeeded: a serde deserialization failure propagated by `?`
(`malformedResponse`), or the composed `Report::msg` built when the
envelope carries no `data` (`queryFailed`). -/
inductive FetchError where
  | malformedResponse (e : DecodeError)
  | queryFailed (msg : String)
deriving DecidableEq

/-- The pure tail of `Campaign::fetch_by` (src/lib.rs): given the
response body already parsed as JSON, deserialize the envelope; if
`data` is present return its campaign; otherwise format every error
with the `ApiError` Display rule, join with newlines, and fail with
`"Campaign Query failed:\n"` followed by the joined errors. -/
def fetch_by_decode (j : Json) : Except FetchError Campaign :=
  match deserializeApiResponse j with
  | .error e => .error (.malformedResponse e)
  | .ok res =>
    match res.data with
    | some data => .ok data.campaign
    | none =>
      let errors := res.errors.map ApiError.display
      .error (.queryFailed ("Campaign Query failed:\n" ++ String.intercalate "\n" errors))

/-! ## Query builder (src/lib.rs) -/

/-- The query text embedded in `build_graph_ql_query` after `indoc!`
strips the common indentation (eight spaces, the indentation of the
least-indented line after the first). -/
def srcQueryTemplate : String :=
  "query get_campaign_by_vanity_and_slug($vanity: String, $slug: String) \x7b\n" ++
  "    campaign(vanity: $vanity, slug: $slug) \x7b\n" ++
  "        name\n" ++
  "        description\n" ++
  "        totalAmountRaised \x7b\n" ++
  "            currency\n" ++
  "            value\n" ++
  "        \x7d\n" ++
  "        goal \x7b\n" ++
  "            currency\n" ++
  "            value\n" ++
  "        \x7d\n" ++
  "        milestones \x7b\n" ++
  "            name\n" ++
  "            amount \x7b\n" ++
  "                currency\n" ++
  "                value\n" ++
  "            \x7d\n" ++
  "        \x7d\n" ++
  "    \x7d\n" ++
  "\x7d"

/-- Modelled from the spec: the query-language text the specification
gives verbatim in §6 as the content of the `query` field. -/
def specQueryTemplate : String :=
  "query get_campaign_by_vanity_and_slug($vanity: String, $slug: String) \x7b\n" ++
  "  campaign(vanity: $vanity, slug: $slug) \x7b\n" ++
  "    name\n" ++
  "    description\n" ++
  "    totalAmountRaised \x7b currency value \x7d\n" ++
  "    goal \x7b currency value \x7d\n" ++
  "    milestones \x7b name amount \x7b currency value \x7d \x7d\n" ++
  "  \x7d\n" ++
  "\x7d"

/-- build_graph_ql_query (src/lib.rs): the `json!` object with the three
keys `operationName`, `variables` and `query`, both inputs passed
through verbatim.  (serde_json's map does not preserve insertion order;
the field list here follows the source text, and no claim depends on
key order.) -/
def build_graph_ql_query (vanity slug : String) : Json :=
  .obj
    [("operationName", .str "get_campaign_by_vanity_and_slug"),
     ("variables", .obj [("vanity", .str vanity), ("slug", .str slug)]),
     ("query", .str srcQueryTemplate)]

/-- Split a character list on spaces and newlines, dropping empty
pieces; the accumulator carries the current token reversed. -/
def splitWsAux : List Char → List Char → List String
  | [], acc => if acc.isEmpty then [] else [String.mk acc.reverse]
  | c :: t, acc =>
    if c = ' ' ∨ c = '\n' then
      (if acc.isEmpty then [] else [String.mk acc.reverse]) ++ splitWsAux t []
    else splitWsAux t (c :: acc)

/-- Whitespace tokenization used to compare the two query templates:
split on spaces and newlines and drop empty pieces. -/
def wsTokens (s : String) : List String :=
  splitWsAux s.data []

/-! ## CurrencyAmount (src/campaign.rs and src/main.rs) -/

/-- The alternative currency type of src/campaign.rs and src/main.rs: a
currency tag alongside the amount. -/
structure CurrencyAmount where
  currency : String
  value : F64
deriving DecidableEq

/-- CurrencyAmount::from_usd. -/
def CurrencyAmount.from_usd (value : F64) : CurrencyAmount :=
  ⟨"USD", value⟩

/-- The `From<CurrencyAmount> for f64` conversion:
`assert_eq!(amount.currency, "USD"); amount.value`.  The assertion's
hard abort is modelled as `none`; a successful conversion as `some`. -/
def currencyAmountToF64 (amount : CurrencyAmount) : Option F64 :=
  if amount.currency = "USD" then some amount.value else none

/-- Decidable equality for `Except`, so concrete decoder runs can be
checked by `decide`. -/
instance {ε α : Type} [DecidableEq ε] [DecidableEq α] : DecidableEq (Except ε α) := fun x y =>
  match x, y with
  | .ok a, .ok b =>
    if h : a = b then .isTrue (congrArg Except.ok h)
    else .isFalse fun hh => h (Except.ok.inj hh)
  | .error a, .error b =>
    if h : a = b then .isTrue (congrArg Except.error h)
    else .isFalse fun hh => h (Except.error.inj hh)
  | .ok _, .error _ => .isFalse fun hh => Except.noConfusion hh
  | .error _, .ok _ => .isFalse fun hh => Except.noConfusion hh

/-- Modelled from the spec: the presenter's amount formatting rule
(§4.5) — a dollar sign, the truncated integer portion grouped in
thousands with commas, a dot, and the cents `floor(100·fractional + 0.005)`
rendered with two digits. -/
def specUsdFormat (q : ℚ) : String :=
  "$" ++ commaFormat ⌊q⌋.toNat ++ "." ++ pad2 (⌊100 * (q - ⌊q⌋) + 1 / 200⌋).toNat

/-! ## Helper lemmas -/

/-- Fields other than `value` ahead of the interesting entry are skipped
by `Usd`'s field loop without changing the accumulator. -/
theorem usdFields_append_keyFree (pre rest : List (String × Json)) (acc : Option F64)
    (h : ∀ p ∈ pre, p.1 ≠ "value") :
    deserializeUsdFields (pre ++ rest) acc = deserializeUsdFields rest acc := by
  induction pre with
  | nil => rfl
  | cons p t ih =>
    obtain ⟨k, v⟩ := p
    have hk : k ≠ "value" := h (k, v) (List.mem_cons_self _ _)
    simp only [List.cons_append, deserializeUsdFields, if_neg hk]
    exact ih fun q hq => h q (List.mem_cons_of_mem _ hq)

/-- Once the `value` field is recorded, a trailing run of fields without
the key `value` leaves the result unchanged. -/
theorem usdFields_skip_of_keyFree (l : List (String × Json)) (x : F64)
    (h : ∀ p ∈ l, p.1 ≠ "value") :
    deserializeUsdFields l (some x) = .ok x := by
  induction l with
  | nil => rfl
  | cons p t ih =>
    obtain ⟨k, v⟩ := p
    have hk : k ≠ "value" := h (k, v) (List.mem_cons_self _ _)
    simp only [deserializeUsdFields, if_neg hk]
    exact ih fun q hq => h q (List.mem_cons_of_mem _ hq)

/-! ## Claims -/

/-- C1: for every response body whose JSON parse yields an envelope in
which `data.campaign` is present and non-null, `fetch_by` returns that
decoded `Campaign` successfully.  The theorem holds for an arbitrary
decoded `errors` slot, hence in particular when `errors` is absent or an
empty list. -/
theorem c1_data_present_returns_campaign (j : Json) (r : ApiResponse) (c : Campaign)
    (h : deserializeApiResponse j = .ok r) (hd : r.data = some ⟨c⟩) :
    fetch_by_decode j = .ok c := by
  unfold fetch_by_decode
  rw [h]
  dsimp only
  rw [hd]

/-- Concrete response body exercising C1: campaign present, one
milestone, empty `errors` list. -/
def c1Body : Json :=
  .obj
    [("data", .obj
      [("campaign", .obj
        [("name", .str "Relay FM for St. Jude 2021"),
         ("description", .str "history"),
         ("totalAmountRaised", .obj [("currency", .str "USD"), ("value", .str "22663.40")]),
         ("goal", .obj [("currency", .str "USD"), ("value", .str "333333.33")]),
         ("milestones", .arr
           [.obj [("name", .str "Flight Simulator"),
                  ("amount", .obj [("currency", .str "USD"), ("value", .str "20000.00")])]])])]),
     ("errors", .arr [])]

/-- The campaign value `c1Body` decodes to. -/
def c1Campaign : Campaign :=
  ⟨"Relay FM for St. Jude 2021", "history",
   Usd.new (.val (22663.40 : ℚ)), Usd.new (.val (333333.33 : ℚ)),
   [⟨"Flight Simulator", Usd.new (.val 20000)⟩]⟩

/-- Witness for C1 at the concrete body `c1Body`. -/
theorem c1_witness :
    deserializeApiResponse c1Body = .ok ⟨some ⟨c1Campaign⟩, []⟩ ∧
    fetch_by_decode c1Body = .ok c1Campaign :=
  ⟨by with_unfolding_all rfl,
   c1_data_present_returns_campaign c1Body ⟨some ⟨c1Campaign⟩, []⟩ c1Campaign
     (by with_unfolding_all rfl) rfl⟩

/-- C2 counterexample: the body `\x7b\x7d` does not surface a distinct
`EmptyResponse` error kind — it takes the same `Report::msg` path, with
the same constructor and header, as a response that carries remote
errors; the two are distinguishable only by the empty tail of the
message. -/
theorem c2_counterexample :
    fetch_by_decode (Json.obj []) =
      .error (.queryFailed "Campaign Query failed:\n") ∧
    fetch_by_decode (Json.obj [("errors", Json.arr [Json.obj [("message", Json.str "boom")]])]) =
      .error (.queryFailed "Campaign Query failed:\n~ boom") :=
  ⟨rfl, by decide⟩

/-- C2 (amended): a body parsing to an envelope with `data` absent and
an empty `errors` list fails with the remote-error report
`"Campaign Query failed:\n"` carrying no error lines; the code has no
distinct `EmptyResponse` kind. -/
theorem c2_empty_envelope_reports_query_failed (j : Json) (r : ApiResponse)
    (h : deserializeApiResponse j = .ok r) (hd : r.data = none) (he : r.errors = []) :
    fetch_by_decode j = .error (.queryFailed "Campaign Query failed:\n") := by
  unfold fetch_by_decode
  rw [h]
  dsimp only
  rw [hd]
  dsimp only
  rw [he]
  rfl

/-- Witness for C2 at the empty body. -/
theorem c2_witness :
    deserializeApiResponse (Json.obj []) = .ok ⟨none, []⟩ ∧
    fetch_by_decode (Json.obj []) = .error (.queryFailed "Campaign Query failed:\n") :=
  ⟨rfl, c2_empty_envelope_reports_query_failed (Json.obj []) ⟨none, []⟩ rfl rfl rfl⟩

/-- C3: for every response whose envelope has `data` absent and a
non-empty `errors` sequence, the fetch fails with the message
`"Campaign Query failed:"` followed by every entry formatted by the
`ApiError` rule, in received order, joined with single newline
separators — all entries, not just the first.  (This is
`Campaign::fetch_by` in src/lib.rs, the spec's canonical fetcher; the
legacy `query_campaign_status` in src/main.rs is the acknowledged
earlier variant that keeps only the first error.) -/
theorem c3_all_errors_reported_in_order (j : Json) (r : ApiResponse)
    (h : deserializeApiResponse j = .ok r) (hd : r.data = none) (_hne : r.errors ≠ []) :
    fetch_by_decode j =
      .error (.queryFailed ("Campaign Query failed:\n" ++
        String.intercalate "\n" (r.errors.map ApiError.display))) := by
  unfold fetch_by_decode
  rw [h]
  dsimp only
  rw [hd]

/-- Concrete response body exercising C3: `data` null, two errors, the
first with two locations. -/
def c3Body : Json :=
  .obj
    [("data", .null),
     ("errors", .arr
       [.obj [("message", .str "bad slug"),
              ("locations", .arr
                [.obj [("line", .num 2), ("column", .num 5)],
                 .obj [("line", .num 7), ("column", .num 9)]])],
        .obj [("message", .str "second")]])]

/-- Witness for C3 at `c3Body`: both errors appear, in received order,
each rendered from its first location. -/
theorem c3_witness :
    fetch_by_decode c3Body =
      .error (.queryFailed "Campaign Query failed:\n~:2:5 bad slug\n~ second") := by
  have h := c3_all_errors_reported_in_order c3Body
    ⟨none, [⟨"bad slug", [⟨2, 5⟩, ⟨7, 9⟩]⟩, ⟨"second", []⟩]⟩
    (by with_unfolding_all rfl) rfl (by decide)
  exact h

/-- C4 counterexample: a currency object whose `value` string is
`"NaN"` (or an infinity spelling) does not fail with `MalformedAmount`:
Rust's float parser accepts the spelling, so decoding succeeds and
yields a non-finite amount. -/
theorem c4_counterexample :
    deserializeUsd (Json.obj [("currency", Json.str "USD"), ("value", Json.str "NaN")]) =
      .ok (Usd.new .nan) ∧
    deserializeUsd (Json.obj [("currency", Json.str "USD"), ("value", Json.str "inf")]) =
      .ok (Usd.new (.inf false)) := by
  decide

/-- C4 (amended): for every `value` string the float grammar accepts
with a non-finite result — `"NaN"`, the infinity spellings, and their
signed and case variants — decoding succeeds and produces that
non-finite amount; `MalformedAmount` arises exactly on strings the
float grammar rejects. -/
theorem c4_nonfinite_spellings_decode_ok (s : String) (x : F64)
    (hp : parseF64 s = some x) (_hx : x.isFinite = false) :
    deserializeUsd (Json.obj [("currency", Json.str "USD"), ("value", Json.str s)]) =
      .ok (Usd.new x) := by
  simp only [deserializeUsd, deserializeUsdFields, deserialize_f64_from_str, hp,
    if_neg (by decide : ("currency" : String) ≠ "value"),
    if_pos (rfl : ("value" : String) = "value")]
  rfl

/-- Witness for C4 at the string `"NaN"`. -/
theorem c4_witness :
    parseF64 "NaN" = some F64.nan ∧ F64.isFinite F64.nan = false ∧
    deserializeUsd (Json.obj [("currency", Json.str "USD"), ("value", Json.str "NaN")]) =
      .ok (Usd.new F64.nan) :=
  ⟨rfl, rfl, c4_nonfinite_spellings_decode_ok "NaN" F64.nan rfl rfl⟩

/-- C5: decoding a currency object whose `value` string parses as a
finite float `x` succeeds with a `Usd` whose `usd()` is `x`, decoding
with a `value` string that fails the numeric parse fails with
`MalformedAmount`, and sibling fields (such as `currency`) before or
after `value` are ignored. -/
theorem c5_usd_decode_contract (pre post : List (String × Json)) (s : String)
    (hpre : ∀ p ∈ pre, p.1 ≠ "value") (hpost : ∀ p ∈ post, p.1 ≠ "value") :
    (∀ x : ℚ, parseF64 s = some (.val x) →
      ∃ u : Usd,
        deserializeUsd (Json.obj (pre ++ ("value", Json.str s) :: post)) = .ok u ∧
        u.usd = .val x) ∧
    (parseF64 s = none →
      deserializeUsd (Json.obj (pre ++ ("value", Json.str s) :: post)) =
        .error (.malformedAmount s)) := by
  constructor
  · intro x hx
    refine ⟨Usd.new (.val x), ?_, rfl⟩
    simp only [deserializeUsd, usdFields_append_keyFree _ _ _ hpre, deserializeUsdFields,
      deserialize_f64_from_str, hx, if_pos (rfl : ("value" : String) = "value"),
      usdFields_skip_of_keyFree _ _ hpost]
    rfl
  · intro hx
    simp only [deserializeUsd, usdFields_append_keyFree _ _ _ hpre, deserializeUsdFields,
      deserialize_f64_from_str, hx, if_pos (rfl : ("value" : String) = "value")]
    rfl

/-- Witness for C5: the fixture goal amount decodes to its exact value
with the `currency` sibling ignored, and a non-numeric string fails
with `MalformedAmount`. -/
theorem c5_witness :
    (∃ u : Usd,
      deserializeUsd (Json.obj [("currency", Json.str "USD"), ("value", Json.str "333333.33")]) =
        .ok u ∧ u.usd = .val (333333.33 : ℚ)) ∧
    deserializeUsd (Json.obj [("currency", Json.str "USD"), ("value", Json.str "not-a-number")]) =
      .error (.malformedAmount "not-a-number") :=
  ⟨(c5_usd_decode_contract [("currency", Json.str "USD")] [] "333333.33"
      (by decide) (by decide)).1 (333333.33 : ℚ) (by with_unfolding_all rfl),
   (c5_usd_decode_contract [("currency", Json.str "USD")] [] "not-a-number"
      (by decide) (by decide)).2 (by decide)⟩

/-- C6: an `ApiError` renders as `~ <message>` when it has no locations,
and as `~:<line>:<column> <message>` from the first location only when
one or more locations are present. -/
theorem c6_api_error_format (e : ApiError) :
    (e.locations = [] → e.display = "~ " ++ e.message) ∧
    (∀ l rest, e.locations = l :: rest →
      e.display = "~:" ++ toString l.line ++ ":" ++ toString l.column ++ " " ++ e.message) := by
  constructor
  · intro h
    simp [ApiError.display, h]
  · intro l rest h
    simp [ApiError.display, h]

/-- Witness for C6: an error without locations, and one with two
locations rendered from the first. -/
theorem c6_witness :
    ApiError.display ⟨"bad slug", []⟩ = "~ bad slug" ∧
    ApiError.display ⟨"bad slug", [⟨2, 5⟩, ⟨7, 9⟩]⟩ = "~:2:5 bad slug" :=
  ⟨(c6_api_error_format ⟨"bad slug", []⟩).1 rfl,
   (c6_api_error_format ⟨"bad slug", [⟨2, 5⟩, ⟨7, 9⟩]⟩).2 ⟨2, 5⟩ [⟨7, 9⟩] rfl⟩

/-- C9: converting a `CurrencyAmount` to a plain number returns the
stored value exactly when the currency tag is `"USD"`, and aborts (the
assertion fails) for every other tag; under the precondition
`currency = "USD"` the abort branch is unreachable. -/
theorem c9_currency_conversion_usd_only (a : CurrencyAmount) :
    (a.currency = "USD" → currencyAmountToF64 a = some a.value) ∧
    (a.currency ≠ "USD" → currencyAmountToF64 a = none) := by
  constructor
  · intro h
    simp [currencyAmountToF64, h]
  · intro h
    simp [currencyAmountToF64, h]

/-- Witness for C9: a USD amount converts, a EUR amount aborts. -/
theorem c9_witness :
    currencyAmountToF64 ⟨"USD", .val 1⟩ = some (.val 1) ∧
    currencyAmountToF64 ⟨"EUR", .val 1⟩ = none :=
  ⟨(c9_currency_conversion_usd_only ⟨"USD", .val 1⟩).1 rfl,
   (c9_currency_conversion_usd_only ⟨"EUR", .val 1⟩).2 (by decide)⟩

/-- C10: a currency object whose `value` arrives as a native JSON
number is rejected with a structural (malformed-response) error for
every number, while the same digits in string form decode
successfully. -/
theorem c10_numeric_value_rejected (c : String) (q : ℚ) :
    deserializeUsd (Json.obj [("currency", Json.str c), ("value", Json.num q)]) =
      .error .typeError ∧
    deserializeUsd (Json.obj [("currency", Json.str c), ("value", Json.str "42.5")]) =
      .ok (Usd.new (.val (85 / 2 : ℚ))) := by
  constructor
  · simp only [deserializeUsd, deserializeUsdFields, deserialize_f64_from_str,
      if_neg (by decide : ("currency" : String) ≠ "value"),
      if_pos (rfl : ("value" : String) = "value")]
    rfl
  · simp only [deserializeUsd, deserializeUsdFields, deserialize_f64_from_str,
      if_neg (by decide : ("currency" : String) ≠ "value"),
      if_pos (rfl : ("value" : String) = "value")]
    with_unfolding_all rfl

/-- C7 counterexample: the formatter does not always emit exactly two
decimal digits — for an amount whose fractional part is at least
`0.99995` the cents computation reaches 100 and three digits are
printed, as for `Usd::new(0.99999)`, displayed `$0.100`. -/
theorem c7_counterexample :
    Usd.display (Usd.new (.val (99999 / 100000 : ℚ))) = "$0.100" ∧
    (((Usd.display (Usd.new (.val (99999 / 100000 : ℚ)))).splitOn ".").getLastD "").length = 3 := by
  constructor
  · with_unfolding_all rfl
  · with_unfolding_all rfl

/-- C7 (amended): the formatter groups thousands with commas, truncates
the float for the integer part, and computes the cents as
`floor(100·fractional + 0.005)`, rendered zero-padded to at least two
digits — exactly two except in the half-cent overflow case refuted
above; the displayed text agrees with the spec's formatting rule for
every non-negative amount below `2^64`, and the two cited instances
hold. -/
theorem c7_display_matches_spec_format :
    (∀ q : ℚ, 0 ≤ q → q < 2 ^ 64 →
      Usd.display (Usd.new (.val q)) = specUsdFormat q) ∧
    Usd.display (Usd.new (.val (22663.40 : ℚ))) = "$22,663.40" ∧
    Usd.display (Usd.new (.val (333333.33 : ℚ))) = "$333,333.33" := by
  refine ⟨?_, by with_unfolding_all rfl, by with_unfolding_all rfl⟩
  intro q h0 hlt
  have hcast : q < ((2 ^ 64 : ℤ) : ℚ) := by exact_mod_cast hlt
  have h1 : ⌊q⌋.toNat ≤ 2 ^ 64 - 1 := by
    have : ⌊q⌋ < (2 : ℤ) ^ 64 := Int.floor_lt.mpr (by push_cast; exact_mod_cast hcast)
    omega
  have hf0 : (0 : ℚ) ≤ q - ⌊q⌋ := by
    have := Int.floor_le q
    linarith
  have hf1 : q - ⌊q⌋ < 1 := by
    have := Int.lt_floor_add_one q
    linarith
  have h2 : (0 : ℚ) ≤ 100 * (q - ⌊q⌋) + 1 / 200 := by linarith
  have h3 : ⌊100 * (q - ⌊q⌋) + 1 / 200⌋.toNat ≤ 255 := by
    have : ⌊100 * (q - ⌊q⌋) + 1 / 200⌋ < 101 := Int.floor_lt.mpr (by push_cast; linarith)
    omega
  simp only [Usd.display, Usd.new, F64.toU64, F64.cents, rustCastU64, rustCastU8, rustFract,
    specUsdFormat, if_neg (not_lt.mpr h0), if_neg (not_lt.mpr h2), if_pos h0,
    min_eq_left h1, min_eq_left h3]

/-- Witness for C7 at the fixture's raised amount. -/
theorem c7_witness :
    (0 : ℚ) ≤ 22663.40 ∧ (22663.40 : ℚ) < 2 ^ 64 ∧
    Usd.display (Usd.new (.val (22663.40 : ℚ))) = specUsdFormat (22663.40 : ℚ) :=
  ⟨by norm_num, by norm_num,
   c7_display_matches_spec_format.1 (22663.40 : ℚ) (by norm_num) (by norm_num)⟩

/-- C8 counterexample: the `query` field of the built payload is the
template embedded in the source, and that template is not the spec's
verbatim text — the source formats with four-space indentation and one
field per line. -/
theorem c8_counterexample :
    build_graph_ql_query "@relay-fm" "relay-st-jude-21" =
      Json.obj
        [("operationName", Json.str "get_campaign_by_vanity_and_slug"),
         ("variables", Json.obj
           [("vanity", Json.str "@relay-fm"), ("slug", Json.str "relay-st-jude-21")]),
         ("query", Json.str srcQueryTemplate)] ∧
    srcQueryTemplate ≠ specQueryTemplate :=
  ⟨rfl, by decide⟩

/-- C8 (amended): for every pair of inputs the query builder returns the
JSON object with exactly the three top-level keys `operationName`,
`variables` and `query`, with the operation name literal, both inputs
passed through verbatim and unvalidated, and `query` holding the fixed
template embedded in the source — which agrees with the spec's template
token for token and differs only in whitespace layout. -/
theorem c8_query_builder_shape (vanity slug : String) :
    build_graph_ql_query vanity slug =
      Json.obj
        [("operationName", Json.str "get_campaign_by_vanity_and_slug"),
         ("variables", Json.obj [("vanity", Json.str vanity), ("slug", Json.str slug)]),
         ("query", Json.str srcQueryTemplate)] ∧
    wsTokens srcQueryTemplate = wsTokens specQueryTemplate :=
  ⟨rfl, by decide⟩

end StJude
